import Mathlib

/-
Verification of the TRI_FLAG execution-and-decision core.

This file is a shallow embedding of the repository code:
  - agent/decision.py        (DecisionType, Decision)
  - agent/agent_state.py     (AgentState and its mutation methods)
  - policies/policy_engine.py (PolicyEngine)
  - agent/triage_agent.py    (TriageAgent.run and its tool-execution loop)

Python dictionaries are modelled as association lists with insertion-order
preserving assignment (dictSet).  Python values flowing through untyped
dict payloads are modelled by the inductive type Val.  Wall-clock reads
(datetime.now and the derived elapsed-time computation) are abstracted by
a Clock record whose fields supply the timestamp string and the elapsed
milliseconds; no claim depends on actual time values.  Exceptions are
modelled with Except / explicit error sums, mutation by explicit state
passing.
-/

namespace TriFlag

/-- Untyped Python values as they appear in tool-result payloads and
Decision metadata: strings, numbers, booleans, None and nested dicts. -/
inductive Val where
  | vstr (s : String)
  | vnat (n : Nat)
  | vbool (b : Bool)
  | vnone
  | vdict (d : List (String × Val))

/-- Lookup in a Python dict modelled as an association list
(first binding wins; dictSet keeps keys unique). -/
def dictGet {α : Type} : List (String × α) → String → Option α
  | [], _ => none
  | (k, v) :: rest, key => if k = key then some v else dictGet rest key

/-- Python dict assignment: overwrite in place if the key exists,
append at the end otherwise (insertion order preserved, as in CPython). -/
def dictSet {α : Type} : List (String × α) → String → α → List (String × α)
  | [], key, v => [(key, v)]
  | p :: rest, key, v =>
    if p.1 = key then (key, v) :: rest else p :: dictSet rest key v

/-- Python truthiness of a Val, as used by the source in
if not is_valid and similar tests. -/
def Val.truthy : Val → Bool
  | .vstr s => !s.isEmpty
  | .vnat n => n != 0
  | .vbool b => b
  | .vnone => false
  | .vdict d => !d.isEmpty

/-- Rendering of a Val inside an f-string, modelling the Python str()
conversion.  Dict rendering is abbreviated (no claim exercises it). -/
def Val.toPyString : Val → String
  | .vstr s => s
  | .vnat n => toString n
  | .vbool b => if b then "True" else "False"
  | .vnone => "None"
  | .vdict _ => "<dict>"

/-- Models the Python test (not s or not s.strip()): true exactly when
the string is empty or consists solely of whitespace. -/
def pyFalsyStr (s : String) : Bool := s.data.all Char.isWhitespace

/-- DecisionType enum from agent/decision.py: PASS / FLAG / DISCARD. -/
inductive DecisionType where
  | pass
  | flag
  | discard
deriving DecidableEq

/-- The .value attribute of the DecisionType enum. -/
def DecisionType.value : DecisionType → String
  | .pass => "pass"
  | .flag => "flag"
  | .discard => "discard"

/-- The .name attribute of the DecisionType enum. -/
def DecisionType.enumName : DecisionType → String
  | .pass => "PASS"
  | .flag => "FLAG"
  | .discard => "DISCARD"

/-- The DecisionType(value) enum constructor: value string to member,
None when the string is not a valid value (Python raises ValueError). -/
def DecisionType.ofValue : String → Option DecisionType
  | "pass" => some .pass
  | "flag" => some .flag
  | "discard" => some .discard
  | _ => none

/-- Decision dataclass from agent/decision.py. -/
structure Decision where
  decisionType : DecisionType
  rationale : String
  metadata : List (String × Val)

/-- Decision construction including the checks of Decision.__post_init__:
reject an empty or whitespace-only rationale, and auto-populate the
timestamp key of the metadata when absent.  The type checks of
__post_init__ (decision_type is a DecisionType, metadata is a dict) hold
by construction in this typed embedding.  The argument now stands for
datetime.now().isoformat(). -/
def Decision.create (dt : DecisionType) (rationale : String)
    (metadata : List (String × Val)) (now : String) :
    Except String Decision :=
  if pyFalsyStr rationale then
    .error "rationale cannot be empty - decisions must be explained"
  else
    .ok { decisionType := dt, rationale := rationale,
          metadata :=
            if (dictGet metadata "timestamp").isSome then metadata
            else dictSet metadata "timestamp" (.vstr now) }

/-- Decision.to_dict from agent/decision.py. -/
def Decision.toDict (d : Decision) : List (String × Val) :=
  [("decision_type", .vstr d.decisionType.value),
   ("rationale", .vstr d.rationale),
   ("metadata", .vdict d.metadata)]

/-- Decision.from_dict from agent/decision.py: read decision_type,
rationale and metadata (defaulting to the empty dict) and re-run
construction.  Missing keys, an invalid decision_type value, or fields of
the wrong shape make the Python constructor raise; the exact builtin
exception kinds are collapsed into the error string. -/
def Decision.fromDict (data : List (String × Val)) (now : String) :
    Except String Decision :=
  match dictGet data "decision_type" with
  | none => .error "KeyError: decision_type"
  | some (.vstr s) =>
    match DecisionType.ofValue s with
    | none => .error "ValueError: not a valid DecisionType"
    | some dt =>
      match dictGet data "rationale" with
      | none => .error "KeyError: rationale"
      | some (.vstr r) =>
        match dictGet data "metadata" with
        | none => Decision.create dt r [] now
        | some (.vdict m) => Decision.create dt r m now
        | some _ => .error "TypeError: metadata must be dict"
      | some _ => .error "TypeError: rationale must be str"
  | some _ => .error "ValueError: not a valid DecisionType"

/-- Status codes of ToolExecutionStatus from agent/triage_agent.py. -/
inductive ToolExecutionStatus where
  | success
  | failure
  | skipped
deriving DecidableEq

/-- ToolFailureMode from agent/triage_agent.py: NON_TERMINAL failures are
recorded and execution continues, TERMINAL failures abort the run. -/
inductive ToolFailureMode where
  | nonTerminal
  | terminal
deriving DecidableEq

/-- ToolResult dataclass from agent/triage_agent.py. -/
structure ToolResult where
  toolName : String
  status : ToolExecutionStatus
  data : Option (List (String × Val)) := none
  errorMessage : Option String := none
  executionTimeMs : Option Nat := none

/-- A value returned by a tool invocation: either a ToolResult object or
any other Python value (dicts and the rest, covered by Val).  The source
distinguishes the two with isinstance(result, ToolResult). -/
inductive ToolOutput where
  | toolResult (tr : ToolResult)
  | rawVal (v : Val)

/-- AgentState from agent/agent_state.py.  Field names follow the source;
the three underscore-prefixed flags are toolsComplete, terminated and
decisionSet.  The execution_start_time datetime is modelled by its
timestamp string. -/
structure AgentState where
  moleculeId : String
  rawInput : Val
  toolResults : List (String × ToolOutput) := []
  messages : List String := []
  decision : Option Decision := none
  executionStartTime : Option String := none
  toolsComplete : Bool := false
  terminated : Bool := false
  decisionSet : Bool := false

/-- AgentState.add_tool_result: store a tool output under the tool name,
overwriting any previous binding (last-write-wins). -/
def AgentState.addToolResult (s : AgentState) (toolName : String)
    (result : ToolOutput) : AgentState :=
  { s with toolResults := dictSet s.toolResults toolName result }

/-- AgentState.add_message: append a human-readable message. -/
def AgentState.addMessage (s : AgentState) (message : String) : AgentState :=
  { s with messages := s.messages ++ [message] }

/-- AgentState.set_decision: attach the final decision and raise the
decision_set flag. -/
def AgentState.setDecision (s : AgentState) (d : Decision) : AgentState :=
  { s with decision := some d, decisionSet := true }

/-- AgentState.set_tools_complete: raise the tools_complete flag and, when
a truthy timestamp is supplied, append the completion message. -/
def AgentState.setToolsComplete (s : AgentState) (timestamp : Option String) :
    AgentState :=
  { s with toolsComplete := true,
           messages :=
             match timestamp with
             | some t =>
               if t.isEmpty then s.messages
               else s.messages ++ ["All tools completed at " ++ t]
             | none => s.messages }

/-- AgentState.terminate: raise the terminated flag and, when a truthy
reason is supplied, append the early-termination message. -/
def AgentState.terminate (s : AgentState) (reason : Option String) :
    AgentState :=
  { s with terminated := true,
           messages :=
             match reason with
             | some r =>
               if r.isEmpty then s.messages
               else s.messages ++ ["Early termination: " ++ r]
             | none => s.messages }

/-- AgentState.is_terminated. -/
def AgentState.isTerminated (s : AgentState) : Bool := s.terminated

/-- AgentState.is_tools_complete. -/
def AgentState.isToolsComplete (s : AgentState) : Bool := s.toolsComplete

/-- AgentState.is_decision_set. -/
def AgentState.isDecisionSet (s : AgentState) : Bool := s.decisionSet

/-- AgentState.identifier property (alias for molecule_id). -/
def AgentState.identifier (s : AgentState) : String := s.moleculeId

/-- The mutating operations AgentState exposes, used to state flag
monotonicity over arbitrary operation sequences. -/
inductive AgentOp where
  | addToolResult (toolName : String) (result : ToolOutput)
  | addMessage (message : String)
  | setDecision (d : Decision)
  | setToolsComplete (timestamp : Option String)
  | terminate (reason : Option String)

/-- Apply one AgentState mutating operation. -/
def AgentState.applyOp (s : AgentState) : AgentOp → AgentState
  | .addToolResult n r => s.addToolResult n r
  | .addMessage m => s.addMessage m
  | .setDecision d => s.setDecision d
  | .setToolsComplete t => s.setToolsComplete t
  | .terminate r => s.terminate r

/-- Outcome of one policy evaluation call: a Decision or None per the
Policy protocol, or a raised exception (PolicyEvaluationError versus any
other exception type, which TriageAgent treats differently). -/
inductive PolicyResult where
  | returns (d : Option Decision)
  | raisesPolicyEvaluationError (msg : String)
  | raisesOther (excType : String) (msg : String)

/-- A policy rule: the Policy protocol of policies/policy_engine.py. -/
structure Policy where
  eval : AgentState → PolicyResult

/-- An exception escaping PolicyEngine.evaluate, before TriageAgent
classifies it. -/
inductive PolicyRaise where
  | policyEvaluationError (msg : String)
  | otherError (excType : String) (msg : String)

/-- PolicyEngine from policies/policy_engine.py: an ordered policy list
plus the default action (FLAG when not supplied). -/
structure PolicyEngine where
  policies : List Policy
  defaultAction : DecisionType := .flag

/-- PolicyEngine._create_fallback_decision: the conservative default
Decision produced when no policy is decisive.  Decision construction runs
__post_init__, hence the Except; the argument now stands for the clock
read inside Decision construction. -/
def PolicyEngine.createFallbackDecision (e : PolicyEngine) (now : String)
    (s : AgentState) : Except String Decision :=
  Decision.create e.defaultAction
    ("No decisive policy triggered for " ++ s.identifier ++
     ". Applying conservative default action (" ++ e.defaultAction.enumName ++
     ") pending further review or policy refinement.")
    [("decision_type", .vstr "fallback"),
     ("num_policies_evaluated", .vnat e.policies.length),
     ("tool_results_count", .vnat s.toolResults.length)]
    now

/-- The policy iteration of PolicyEngine.evaluate: return the first
Decision produced, fall back when the list is exhausted, and propagate
any exception a policy raises.  An exception from the fallback Decision
construction would be a ValueError escaping evaluate. -/
def PolicyEngine.evalLoop (e : PolicyEngine) (now : String) (s : AgentState) :
    List Policy → Except PolicyRaise Decision
  | [] =>
    match e.createFallbackDecision now s with
    | .ok d => .ok d
    | .error m => .error (.otherError "ValueError" m)
  | p :: ps =>
    match p.eval s with
    | .returns none => e.evalLoop now s ps
    | .returns (some d) => .ok d
    | .raisesPolicyEvaluationError m => .error (.policyEvaluationError m)
    | .raisesOther ty m => .error (.otherError ty m)

/-- PolicyEngine.evaluate.  The _validate_state checks (state not None,
identifier not None, tool_results present) hold by construction in this
typed embedding, so validation never raises here. -/
def PolicyEngine.evaluate (e : PolicyEngine) (now : String) (s : AgentState) :
    Except PolicyRaise Decision :=
  e.evalLoop now s e.policies

/-- Behaviour of one tool invocation tool.run(state): a returned value,
a raised ToolExecutionError (the declared failure path), or any other
raised exception with its type name. -/
inductive ToolBehavior where
  | success (out : ToolOutput)
  | declaredFailure (msg : String)
  | unexpectedFailure (excType : String) (msg : String)

/-- A tool as TriageAgent consumes it: get_name, get_failure_mode, and
run (whose outcome may depend on the state it is given). -/
structure Tool where
  name : String
  failureMode : ToolFailureMode
  behavior : AgentState → ToolBehavior

/-- Abstraction of the wall clock: the timestamp string returned by
_get_timestamp and the milliseconds returned by _compute_elapsed_time_ms. -/
structure Clock where
  timestamp : String
  elapsedMs : Nat

/-- Errors escaping TriageAgent.run: StateValidationError,
ToolExecutionError re-raised on a TERMINAL failure, PolicyEvaluationError,
or an unexpected exception re-raised from a tool. -/
inductive RunError where
  | stateValidation (msg : String)
  | toolExecution (msg : String)
  | policyEvaluation (msg : String)
  | unexpected (excType : String) (msg : String)

/-- How one loop iteration of TriageAgent.run ends: fall through to the
next tool, break out of the loop, or propagate a raised exception. -/
inductive StepOutcome where
  | continueExec
  | breakLoop
  | raised (e : RunError)

/-- The fix-up at triage_agent.py lines 217-218: when the result is a
ToolResult without an execution time, fill in the measured elapsed time. -/
def fixExecTime (cl : Clock) : ToolOutput → ToolOutput
  | .toolResult tr =>
    .toolResult
      (match tr.executionTimeMs with
       | none => { tr with executionTimeMs := some cl.elapsedMs }
       | some _ => tr)
  | .rawVal v => .rawVal v

/-- The validity_data extraction at triage_agent.py lines 230-233:
result.data for a ToolResult, the result itself otherwise.  none means
the extracted object is not a dict, so the subsequent .get call raises
AttributeError (for example ToolResult.data is None). -/
def validityDataOf : ToolOutput → Option (List (String × Val))
  | .toolResult tr => tr.data
  | .rawVal (.vdict d) => some d
  | .rawVal _ => none

/-- The body of the validity-gate hook (triage_agent.py lines 228-268),
reached after the result of the tool named ValidityTool has been stored:
a falsy or absent is_valid terminates the run early with an explanatory
message; a non-dict validity payload raises AttributeError, which the
unexpected-error handler records and re-raises. -/
def validityGateStep (cl : Clock) (t : Tool) (s1 : AgentState)
    (out1 : ToolOutput) : AgentState × StepOutcome :=
  match validityDataOf out1 with
  | some d =>
    if ((dictGet d "is_valid").getD (.vbool false)).truthy then
      (s1, .continueExec)
    else
      let errMsg :=
        ((dictGet d "error_message").getD
          (.vstr "Unknown validation error")).toPyString
      let s2 := s1.addMessage ("Molecule failed validity check: " ++ errMsg)
      let s3 := s2.terminate (some ("Invalid chemistry: " ++ errMsg))
      (s3, .breakLoop)
  | none =>
    let amsg := "NoneType object has no attribute get"
    let er : ToolResult :=
      { toolName := t.name, status := .failure, data := none,
        errorMessage := some ("Unexpected error: AttributeError: " ++ amsg),
        executionTimeMs := some cl.elapsedMs }
    (s1.addToolResult t.name (.toolResult er),
     .raised (.unexpected "AttributeError" amsg))

/-- The normal-return branch of one loop iteration (triage_agent.py lines
206-279): a None result raises StateValidationError, which the generic
exception handler records as a failure result and re-raises; otherwise
the result is stored and, for the tool named ValidityTool, the validity
gate runs. -/
def stepSuccess (cl : Clock) (t : Tool) (s : AgentState) (out : ToolOutput) :
    AgentState × StepOutcome :=
  match out with
  | .rawVal .vnone =>
    let vmsg := "Tool " ++ t.name ++ " returned None; expected ToolResult or dict"
    let er : ToolResult :=
      { toolName := t.name, status := .failure, data := none,
        errorMessage := some ("Unexpected error: StateValidationError: " ++ vmsg),
        executionTimeMs := some cl.elapsedMs }
    (s.addToolResult t.name (.toolResult er), .raised (.stateValidation vmsg))
  | _ =>
    let out1 := fixExecTime cl out
    let s1 := s.addToolResult t.name out1
    if t.name = "ValidityTool" then validityGateStep cl t s1 out1
    else (s1, .continueExec)

/-- One iteration of the tool-execution loop of TriageAgent.run
(triage_agent.py lines 198-351), for a tool that is actually invoked:
success path, declared ToolExecutionError path (record failure result,
then continue or re-raise by failure mode), and unexpected-exception path
(record failure result, then always re-raise). -/
def stepTool (cl : Clock) (t : Tool) (s : AgentState) :
    AgentState × StepOutcome :=
  match t.behavior s with
  | .success out => stepSuccess cl t s out
  | .declaredFailure msg =>
    let er : ToolResult :=
      { toolName := t.name, status := .failure, data := none,
        errorMessage := some msg, executionTimeMs := some cl.elapsedMs }
    let s1 := s.addToolResult t.name (.toolResult er)
    match t.failureMode with
    | .terminal => (s1, .raised (.toolExecution msg))
    | .nonTerminal => (s1, .continueExec)
  | .unexpectedFailure ty msg =>
    let er : ToolResult :=
      { toolName := t.name, status := .failure, data := none,
        errorMessage := some ("Unexpected error: " ++ ty ++ ": " ++ msg),
        executionTimeMs := some cl.elapsedMs }
    (s.addToolResult t.name (.toolResult er), .raised (.unexpected ty msg))

/-- The tool-execution loop of TriageAgent.run: check the termination flag
at the top of each iteration, run the tool, and thread the outcome.
Returns the state, the escaping exception if any, and the ordered list of
names of the tools that were actually invoked. -/
def runTools (cl : Clock) : List Tool → AgentState →
    AgentState × Option RunError × List String
  | [], s => (s, none, [])
  | t :: rest, s =>
    if s.terminated then (s, none, [])
    else
      match stepTool cl t s with
      | (s1, .continueExec) =>
        let r := runTools cl rest s1
        (r.1, r.2.1, t.name :: r.2.2)
      | (s1, .breakLoop) => (s1, none, [t.name])
      | (s1, .raised e) => (s1, some e, [t.name])

/-- TriageAgent from agent/triage_agent.py: the ordered tool list and the
policy engine (the logger is a no-op for state). -/
structure TriageAgent where
  tools : List Tool
  policyEngine : PolicyEngine

/-- The AgentState created at the start of TriageAgent.run. -/
def TriageAgent.initState (cl : Clock) (moleculeId : String) (rawInput : Val) :
    AgentState :=
  { moleculeId := moleculeId, rawInput := rawInput,
    executionStartTime := some cl.timestamp }

/-- TriageAgent.run, with the invocation trace exposed: initialize the
state, run the tool loop, append the completion message (the
set_tools_complete call at triage_agent.py line 354 is commented out in
the source, so the tools_complete flag is never raised), delegate to the
policy engine (re-raising PolicyEvaluationError as-is and wrapping any
other exception), store the decision, and return the state. -/
def TriageAgent.runFull (a : TriageAgent) (cl : Clock) (moleculeId : String)
    (rawInput : Val) : AgentState × Option RunError × List String :=
  let s0 := TriageAgent.initState cl moleculeId rawInput
  match runTools cl a.tools s0 with
  | (s1, some e, tr) => (s1, some e, tr)
  | (s1, none, tr) =>
    let s2 := s1.addMessage ("All tools completed at " ++ cl.timestamp)
    match a.policyEngine.evaluate cl.timestamp s2 with
    | .ok d => (s2.setDecision d, none, tr)
    | .error (.policyEvaluationError m) => (s2, some (.policyEvaluation m), tr)
    | .error (.otherError ty m) =>
      (s2, some (.policyEvaluation
        ("Unexpected policy evaluation error: " ++ ty ++ ": " ++ m)), tr)

/-- TriageAgent.run as the caller sees it: the final state on a normal
return, the escaping exception otherwise. -/
def TriageAgent.run (a : TriageAgent) (cl : Clock) (moleculeId : String)
    (rawInput : Val) : Except RunError AgentState :=
  match a.runFull cl moleculeId rawInput with
  | (s, none, _) => .ok s
  | (_, some e, _) => .error e

/-! ### Concrete instances used to exercise the model -/

/-- A fixed clock for concrete runs. -/
def clock0 : Clock := { timestamp := "T0", elapsedMs := 7 }

/-- A policy engine with no policies and the default FLAG action. -/
def engine0 : PolicyEngine := { policies := [] }

/-- A concrete valid Decision. -/
def sampleDecision : Decision :=
  { decisionType := .pass, rationale := "all criteria met", metadata := [] }

/-- A second concrete Decision, for first-match-wins checks. -/
def sampleDecision2 : Decision :=
  { decisionType := .discard, rationale := "criteria violated", metadata := [] }

/-- A policy that always returns sampleDecision. -/
def policyAlwaysPass : Policy := { eval := fun _ => .returns (some sampleDecision) }

/-- A policy that always returns sampleDecision2. -/
def policyAlwaysDiscard : Policy :=
  { eval := fun _ => .returns (some sampleDecision2) }

/-- A ValidityTool whose result reports an invalid subject with an
explicit error message. -/
def invalidValidityTool : Tool :=
  { name := "ValidityTool", failureMode := .nonTerminal,
    behavior := fun _ => .success (.rawVal (.vdict
      [("is_valid", .vbool false), ("error_message", .vstr "bad valence")])) }

/-- A ValidityTool whose result dict carries neither is_valid nor
error_message. -/
def emptyDictValidityTool : Tool :=
  { name := "ValidityTool", failureMode := .nonTerminal,
    behavior := fun _ => .success (.rawVal (.vdict [])) }

/-- An ordinary succeeding tool. -/
def sampleTool : Tool :=
  { name := "SampleTool", failureMode := .nonTerminal,
    behavior := fun _ => .success (.rawVal (.vdict [("score", .vnat 1)])) }

/-- A tool that raises a declared failure and is marked TERMINAL. -/
def failingToolTerminal : Tool :=
  { name := "FailTool", failureMode := .terminal,
    behavior := fun _ => .declaredFailure "boom" }

/-- A tool that raises a declared failure and is marked NON_TERMINAL. -/
def failingToolNonTerminal : Tool :=
  { name := "FlakyTool", failureMode := .nonTerminal,
    behavior := fun _ => .declaredFailure "boom" }

/-- An agent whose ValidityTool reports invalid and that has one more
tool after the gate. -/
def agentInvalid : TriageAgent :=
  { tools := [invalidValidityTool, sampleTool], policyEngine := engine0 }

/-- An agent whose single tool succeeds. -/
def agentPlain : TriageAgent :=
  { tools := [sampleTool], policyEngine := engine0 }

/-- A state with both one-shot flags already up. -/
def stateBothFlags : AgentState :=
  { moleculeId := "MOL_W", rawInput := .vnone,
    terminated := true, decisionSet := true }

/-- A sequence of every kind of AgentState operation. -/
def sampleOps : List AgentOp :=
  [.addMessage "note", .addToolResult "SampleTool" (.rawVal .vnone),
   .setToolsComplete none, .terminate none, .setDecision sampleDecision]

/-! ### Helper lemmas -/

/-- Lookup after assignment finds the assigned value. -/
theorem dictGet_dictSet_self {α : Type} (d : List (String × α)) (k : String)
    (v : α) : dictGet (dictSet d k v) k = some v := by
  induction d with
  | nil => simp [dictSet, dictGet]
  | cons p rest ih =>
    by_cases h : p.1 = k
    · simp [dictSet, h, dictGet]
    · simp [dictSet, h, dictGet, ih]

/-- The tool loop does nothing once the termination flag is up. -/
theorem runTools_of_terminated (cl : Clock) (ts : List Tool) (s : AgentState)
    (h : s.terminated = true) : runTools cl ts s = (s, none, []) := by
  cases ts with
  | nil => rfl
  | cons t rest => simp [runTools, h]

/-- The early-termination branch of the validity gate leaves the
termination flag up. -/
theorem validityGateStep_breakLoop_terminated (cl : Clock) (t : Tool)
    (s1 : AgentState) (out1 : ToolOutput) (s2 : AgentState)
    (h : validityGateStep cl t s1 out1 = (s2, .breakLoop)) :
    s2.terminated = true := by
  unfold validityGateStep at h
  cases hvd : validityDataOf out1 <;> rw [hvd] at h
  · simp at h
  · rename_i d
    by_cases hv : ((dictGet d "is_valid").getD (.vbool false)).truthy = true
    · simp [hv] at h
    · simp only [Bool.not_eq_true] at hv
      simp only [hv, Bool.false_eq_true, if_false, Prod.mk.injEq] at h
      rw [← h.1]
      rfl

/-- A loop iteration that breaks does so with the termination flag up. -/
theorem stepTool_breakLoop_terminated (cl : Clock) (t : Tool) (s s1 : AgentState)
    (h : stepTool cl t s = (s1, .breakLoop)) : s1.terminated = true := by
  unfold stepTool at h
  cases hb : t.behavior s <;> rw [hb] at h
  case declaredFailure m =>
    cases hf : t.failureMode <;> simp [hf] at h
  case unexpectedFailure ty m => simp at h
  case success out =>
    unfold stepSuccess at h
    match out with
    | .rawVal .vnone => simp at h
    | .toolResult tr =>
      simp only at h
      by_cases hn : t.name = "ValidityTool"
      · rw [if_pos hn] at h
        exact validityGateStep_breakLoop_terminated cl t _ _ s1 h
      · rw [if_neg hn] at h
        simp at h
    | .rawVal (.vstr a) =>
      simp only at h
      by_cases hn : t.name = "ValidityTool"
      · rw [if_pos hn] at h
        exact validityGateStep_breakLoop_terminated cl t _ _ s1 h
      · rw [if_neg hn] at h
        simp at h
    | .rawVal (.vnat a) =>
      simp only at h
      by_cases hn : t.name = "ValidityTool"
      · rw [if_pos hn] at h
        exact validityGateStep_breakLoop_terminated cl t _ _ s1 h
      · rw [if_neg hn] at h
        simp at h
    | .rawVal (.vbool a) =>
      simp only at h
      by_cases hn : t.name = "ValidityTool"
      · rw [if_pos hn] at h
        exact validityGateStep_breakLoop_terminated cl t _ _ s1 h
      · rw [if_neg hn] at h
        simp at h
    | .rawVal (.vdict a) =>
      simp only at h
      by_cases hn : t.name = "ValidityTool"
      · rw [if_pos hn] at h
        exact validityGateStep_breakLoop_terminated cl t _ _ s1 h
      · rw [if_neg hn] at h
        simp at h

/-- Splitting the tool loop at a prefix that ran to exhaustion without an
escaping exception: the remaining tools run from the intermediate state
and the invocation traces concatenate. -/
theorem runTools_append_of_none (cl : Clock) (ys : List Tool) :
    ∀ (xs : List Tool) (s sMid : AgentState) (tr0 : List String),
      runTools cl xs s = (sMid, none, tr0) →
      runTools cl (xs ++ ys) s =
        ((runTools cl ys sMid).1, (runTools cl ys sMid).2.1,
         tr0 ++ (runTools cl ys sMid).2.2)
  | [], s, sMid, tr0, h => by
    simp only [runTools, Prod.mk.injEq] at h
    obtain ⟨rfl, -, rfl⟩ := h
    simp
  | t :: xs, s, sMid, tr0, h => by
    by_cases ht : s.terminated = true
    · rw [runTools_of_terminated cl (t :: xs) s ht] at h
      simp only [Prod.mk.injEq] at h
      obtain ⟨rfl, -, rfl⟩ := h
      rw [runTools_of_terminated cl (t :: xs ++ ys) s ht,
          runTools_of_terminated cl ys s ht]
      rfl
    · rw [Bool.not_eq_true] at ht
      rcases hst : stepTool cl t s with ⟨s1, outc⟩
      cases outc with
      | continueExec =>
        rcases hr : runTools cl xs s1 with ⟨sM, e1, tr1⟩
        simp only [runTools, ht, Bool.false_eq_true, if_false, hst, hr,
          Prod.mk.injEq] at h
        obtain ⟨rfl, rfl, rfl⟩ := h
        have hih := runTools_append_of_none cl ys xs s1 sM tr1 hr
        rw [List.cons_append]
        simp only [runTools, ht, Bool.false_eq_true, if_false, hst]
        rw [hih]
        simp
      | breakLoop =>
        simp only [runTools, ht, Bool.false_eq_true, if_false, hst,
          Prod.mk.injEq] at h
        obtain ⟨rfl, -, rfl⟩ := h
        have hterm := stepTool_breakLoop_terminated cl t s s1 hst
        rw [List.cons_append]
        simp only [runTools, ht, Bool.false_eq_true, if_false, hst,
          runTools_of_terminated cl ys s1 hterm]
        simp
      | raised e =>
        simp only [runTools, ht, Bool.false_eq_true, if_false, hst,
          Prod.mk.injEq] at h
        exact absurd h.2.1 (by simp)

/-- One loop iteration never touches the decision slot, the decision_set
flag or the tools_complete flag (only set_decision and set_tools_complete
do, and the loop calls neither). -/
theorem stepTool_preserves_flags (cl : Clock) (t : Tool) (s : AgentState) :
    (stepTool cl t s).1.decision = s.decision ∧
    (stepTool cl t s).1.decisionSet = s.decisionSet ∧
    (stepTool cl t s).1.toolsComplete = s.toolsComplete := by
  unfold stepTool stepSuccess validityGateStep
  cases t.behavior s with
  | declaredFailure m =>
    cases t.failureMode <;>
      simp [AgentState.addToolResult]
  | unexpectedFailure ty m => simp [AgentState.addToolResult]
  | success out =>
    match out with
    | .rawVal .vnone => simp [AgentState.addToolResult]
    | .toolResult tr =>
      simp only
      split
      · split
        · split <;>
            simp [AgentState.addToolResult, AgentState.addMessage,
              AgentState.terminate]
        · simp [AgentState.addToolResult]
      · simp [AgentState.addToolResult]
    | .rawVal (.vstr a) =>
      simp only
      split
      · split
        · split <;>
            simp [AgentState.addToolResult, AgentState.addMessage,
              AgentState.terminate]
        · simp [AgentState.addToolResult]
      · simp [AgentState.addToolResult]
    | .rawVal (.vnat a) =>
      simp only
      split
      · split
        · split <;>
            simp [AgentState.addToolResult, AgentState.addMessage,
              AgentState.terminate]
        · simp [AgentState.addToolResult]
      · simp [AgentState.addToolResult]
    | .rawVal (.vbool a) =>
      simp only
      split
      · split
        · split <;>
            simp [AgentState.addToolResult, AgentState.addMessage,
              AgentState.terminate]
        · simp [AgentState.addToolResult]
      · simp [AgentState.addToolResult]
    | .rawVal (.vdict a) =>
      simp only
      split
      · split
        · split <;>
            simp [AgentState.addToolResult, AgentState.addMessage,
              AgentState.terminate]
        · simp [AgentState.addToolResult]
      · simp [AgentState.addToolResult]

/-- The tool loop never touches the decision slot, the decision_set flag
or the tools_complete flag. -/
theorem runTools_preserves_flags (cl : Clock) :
    ∀ (ts : List Tool) (s : AgentState),
      (runTools cl ts s).1.decision = s.decision ∧
      (runTools cl ts s).1.decisionSet = s.decisionSet ∧
      (runTools cl ts s).1.toolsComplete = s.toolsComplete
  | [], s => by simp [runTools]
  | t :: rest, s => by
    by_cases ht : s.terminated = true
    · simp [runTools, ht]
    · rw [Bool.not_eq_true] at ht
      rcases hst : stepTool cl t s with ⟨s1, outc⟩
      have hpres := stepTool_preserves_flags cl t s
      rw [hst] at hpres
      cases outc with
      | continueExec =>
        have hih := runTools_preserves_flags cl rest s1
        simp only [runTools, ht, Bool.false_eq_true, if_false, hst]
        exact ⟨hih.1.trans hpres.1, hih.2.1.trans hpres.2.1,
          hih.2.2.trans hpres.2.2⟩
      | breakLoop =>
        simp only [runTools, ht, Bool.false_eq_true, if_false, hst]
        exact hpres
      | raised e =>
        simp only [runTools, ht, Bool.false_eq_true, if_false, hst]
        exact hpres

/-- Appending a message keeps the termination flag. -/
theorem terminated_addMessage (s : AgentState) (m : String) :
    (s.addMessage m).terminated = s.terminated := rfl

/-- Storing the decision keeps the termination flag. -/
theorem terminated_setDecision (s : AgentState) (d : Decision) :
    (s.setDecision d).terminated = s.terminated := rfl

/-- Storing the decision keeps the message log. -/
theorem messages_setDecision (s : AgentState) (d : Decision) :
    (s.setDecision d).messages = s.messages := rfl

/-- The termination flag is up after terminate. -/
theorem terminated_terminate (s : AgentState) (r : Option String) :
    (s.terminate r).terminated = true := rfl

/-- Messages survive an appended message. -/
theorem mem_messages_addMessage (s : AgentState) (m x : String)
    (h : x ∈ s.messages) : x ∈ (s.addMessage m).messages := by
  simp [AgentState.addMessage, h]

/-- Messages survive a termination signal. -/
theorem mem_messages_terminate (s : AgentState) (r : Option String)
    (x : String) (h : x ∈ s.messages) : x ∈ (s.terminate r).messages := by
  unfold AgentState.terminate
  cases r with
  | none => simpa using h
  | some m =>
    by_cases hm : m.isEmpty <;> simp [hm, h]

/-- Equation for one loop iteration on the ValidityTool when the stored
dict result is not valid (is_valid falsy or absent): the explanatory
message is appended, the state is terminated, and the loop breaks. -/
theorem stepTool_validity_invalid (cl : Clock) (t : Tool) (s : AgentState)
    (hname : t.name = "ValidityTool") (d : List (String × Val))
    (hbeh : t.behavior s = .success (.rawVal (.vdict d)))
    (hinvalid : ((dictGet d "is_valid").getD (.vbool false)).truthy = false) :
    stepTool cl t s =
      (((s.addToolResult t.name (.rawVal (.vdict d))).addMessage
          ("Molecule failed validity check: " ++
            ((dictGet d "error_message").getD
              (.vstr "Unknown validation error")).toPyString)).terminate
        (some ("Invalid chemistry: " ++
          ((dictGet d "error_message").getD
            (.vstr "Unknown validation error")).toPyString)),
       .breakLoop) := by
  simp [stepTool, hbeh, stepSuccess, fixExecTime, hname, validityGateStep,
    validityDataOf, hinvalid]

/-- Equation for the whole loop when the next tool is the ValidityTool
and it reports an invalid subject: only this tool is invoked, the tools
after it are skipped. -/
theorem runTools_validity_invalid (cl : Clock) (t : Tool) (post : List Tool)
    (s : AgentState) (hterm : s.terminated = false)
    (hname : t.name = "ValidityTool") (d : List (String × Val))
    (hbeh : t.behavior s = .success (.rawVal (.vdict d)))
    (hinvalid : ((dictGet d "is_valid").getD (.vbool false)).truthy = false) :
    runTools cl (t :: post) s =
      (((s.addToolResult t.name (.rawVal (.vdict d))).addMessage
          ("Molecule failed validity check: " ++
            ((dictGet d "error_message").getD
              (.vstr "Unknown validation error")).toPyString)).terminate
        (some ("Invalid chemistry: " ++
          ((dictGet d "error_message").getD
            (.vstr "Unknown validation error")).toPyString)),
       none, ["ValidityTool"]) := by
  simp only [runTools, hterm, Bool.false_eq_true, if_false,
    stepTool_validity_invalid cl t s hname d hbeh hinvalid, hname]

/-- When every listed policy defers, the iteration reaches the fallback. -/
theorem evalLoop_all_none (e : PolicyEngine) (now : String) (s : AgentState) :
    ∀ ps : List Policy, (∀ p ∈ ps, p.eval s = .returns none) →
      e.evalLoop now s ps = e.evalLoop now s []
  | [], _ => rfl
  | p :: ps, h => by
    have hp : p.eval s = .returns none := h p (by simp)
    simp only [PolicyEngine.evalLoop, hp]
    exact evalLoop_all_none e now s ps (fun q hq => h q (by simp [hq]))

/-- The iteration skips a deferring prefix and stops at the first
decisive rule, whatever follows it. -/
theorem evalLoop_first_match (e : PolicyEngine) (now : String) (s : AgentState) :
    ∀ (pre : List Policy) (R : Policy) (rest : List Policy) (d : Decision),
      (∀ p ∈ pre, p.eval s = .returns none) →
      R.eval s = .returns (some d) →
      e.evalLoop now s (pre ++ R :: rest) = .ok d
  | [], R, rest, d, _, hR => by simp [PolicyEngine.evalLoop, hR]
  | p :: pre, R, rest, d, hpre, hR => by
    have hp : p.eval s = .returns none := hpre p (by simp)
    simp only [List.cons_append, PolicyEngine.evalLoop, hp]
    exact evalLoop_first_match e now s pre R rest d
      (fun q hq => hpre q (by simp [hq])) hR

/-- When the tool loop finishes without an escaping exception, the rest
of run only appends messages and stores the decision: the invocation
trace is that of the loop, the termination flag survives, messages survive, and
a normal return hands back exactly the internal final state. -/
theorem runFull_props_of_none (a : TriageAgent) (cl : Clock) (mid : String)
    (ri : Val) (s1 : AgentState) (tr : List String)
    (hr : runTools cl a.tools (TriageAgent.initState cl mid ri) = (s1, none, tr)) :
    (a.runFull cl mid ri).2.2 = tr ∧
    (a.runFull cl mid ri).1.terminated = s1.terminated ∧
    (∀ x ∈ s1.messages, x ∈ (a.runFull cl mid ri).1.messages) ∧
    (∀ s, a.run cl mid ri = .ok s → s = (a.runFull cl mid ri).1) := by
  rcases hev : a.policyEngine.evaluate cl.timestamp
      (s1.addMessage ("All tools completed at " ++ cl.timestamp)) with pe | dd
  · cases pe with
    | policyEvaluationError m =>
      have hfull : a.runFull cl mid ri =
          (s1.addMessage ("All tools completed at " ++ cl.timestamp),
           some (.policyEvaluation m), tr) := by
        simp only [TriageAgent.runFull, hr, hev]
      refine ⟨by rw [hfull], by rw [hfull]; rfl, ?_, ?_⟩
      · intro x hx
        rw [hfull]
        exact mem_messages_addMessage s1 _ x hx
      · intro s hs
        unfold TriageAgent.run at hs
        rw [hfull] at hs
        simp at hs
    | otherError ty m =>
      have hfull : a.runFull cl mid ri =
          (s1.addMessage ("All tools completed at " ++ cl.timestamp),
           some (.policyEvaluation
             ("Unexpected policy evaluation error: " ++ ty ++ ": " ++ m)), tr) := by
        simp only [TriageAgent.runFull, hr, hev]
      refine ⟨by rw [hfull], by rw [hfull]; rfl, ?_, ?_⟩
      · intro x hx
        rw [hfull]
        exact mem_messages_addMessage s1 _ x hx
      · intro s hs
        unfold TriageAgent.run at hs
        rw [hfull] at hs
        simp at hs
  · have hfull : a.runFull cl mid ri =
        ((s1.addMessage ("All tools completed at " ++ cl.timestamp)).setDecision dd,
         none, tr) := by
      simp only [TriageAgent.runFull, hr, hev]
    refine ⟨by rw [hfull], by rw [hfull]; rfl, ?_, ?_⟩
    · intro x hx
      rw [hfull]
      exact mem_messages_addMessage s1 _ x hx
    · intro s hs
      unfold TriageAgent.run at hs
      rw [hfull] at hs
      simp only [Except.ok.injEq] at hs
      rw [hfull, ← hs]

/-! ### Claim theorems -/

/-- Claim C5: PolicyEngine.evaluate applies the configured rules in list
order and returns the Decision of the first rule that returns one, never
consulting any later rule.  Stated generally: if the policies split as a
deferring prefix, a decisive rule, and an arbitrary remainder, evaluate
returns the Decision of the decisive rule whatever the remainder would do. -/
theorem policyEngine_first_match_wins (e : PolicyEngine) (now : String)
    (s : AgentState) (pre : List Policy) (R : Policy) (rest : List Policy)
    (d : Decision) (hps : e.policies = pre ++ R :: rest)
    (hpre : ∀ p ∈ pre, p.eval s = .returns none)
    (hR : R.eval s = .returns (some d)) :
    e.evaluate now s = .ok d := by
  unfold PolicyEngine.evaluate
  rw [hps]
  exact evalLoop_first_match e now s pre R rest d hpre hR

/-- Witness for C5: with rules R1 always PASS and R2 always DISCARD, the
engine returns the PASS decision of R1. -/
theorem policyEngine_first_match_wins_witness :
    PolicyEngine.evaluate
        { policies := [policyAlwaysPass, policyAlwaysDiscard] } "T0"
        (TriageAgent.initState clock0 "MOL_001" .vnone) =
      .ok sampleDecision :=
  policyEngine_first_match_wins
    { policies := [policyAlwaysPass, policyAlwaysDiscard] } "T0"
    (TriageAgent.initState clock0 "MOL_001" .vnone)
    [] policyAlwaysPass [policyAlwaysDiscard] sampleDecision rfl
    (by simp) rfl

/-- Claim C6: when no configured rule returns a Decision (in particular
with an empty rule list), PolicyEngine.evaluate returns a fallback
Decision whose category is the configured default (FLAG when the engine
is built without an explicit default; the spec calls it REVIEW), whose rationale
is the non-empty no-decisive-policy text, and whose metadata records the
number of rules evaluated and the number of tool results.  The final
conjunct exhibits the FLAG default of the engine constructor. -/
theorem policyEngine_fallback_decision (e : PolicyEngine) (now : String)
    (s : AgentState)
    (hnone : ∀ p ∈ e.policies, p.eval s = .returns none) :
    (∃ d, e.evaluate now s = .ok d ∧
      d.decisionType = e.defaultAction ∧
      d.rationale = "No decisive policy triggered for " ++ s.identifier ++
        ". Applying conservative default action (" ++
        e.defaultAction.enumName ++
        ") pending further review or policy refinement." ∧
      d.rationale ≠ "" ∧
      dictGet d.metadata "num_policies_evaluated" =
        some (.vnat e.policies.length) ∧
      dictGet d.metadata "tool_results_count" =
        some (.vnat s.toolResults.length)) ∧
    ({ policies := [] } : PolicyEngine).defaultAction = DecisionType.flag := by
  refine ⟨?_, rfl⟩
  have hfal : pyFalsyStr ("No decisive policy triggered for " ++ s.identifier ++
      ". Applying conservative default action (" ++
      e.defaultAction.enumName ++
      ") pending further review or policy refinement.") = false := by
    simp [pyFalsyStr, String.data_append]
  have hcreate : e.createFallbackDecision now s = .ok
      { decisionType := e.defaultAction,
        rationale := "No decisive policy triggered for " ++ s.identifier ++
          ". Applying conservative default action (" ++
          e.defaultAction.enumName ++
          ") pending further review or policy refinement.",
        metadata := [("decision_type", .vstr "fallback"),
          ("num_policies_evaluated", .vnat e.policies.length),
          ("tool_results_count", .vnat s.toolResults.length),
          ("timestamp", .vstr now)] } := by
    unfold PolicyEngine.createFallbackDecision Decision.create
    rw [if_neg (by simp [hfal])]
    simp [dictGet, dictSet]
  refine ⟨Decision.mk e.defaultAction
      ("No decisive policy triggered for " ++ s.identifier ++
        ". Applying conservative default action (" ++
        e.defaultAction.enumName ++
        ") pending further review or policy refinement.")
      [("decision_type", .vstr "fallback"),
        ("num_policies_evaluated", .vnat e.policies.length),
        ("tool_results_count", .vnat s.toolResults.length),
        ("timestamp", .vstr now)], ?_, rfl, rfl, ?_, ?_, ?_⟩
  · unfold PolicyEngine.evaluate
    rw [evalLoop_all_none e now s e.policies hnone]
    simp [PolicyEngine.evalLoop, hcreate]
  · intro hcon
    rw [show ("No decisive policy triggered for " ++ s.identifier ++
        ". Applying conservative default action (" ++
        e.defaultAction.enumName ++
        ") pending further review or policy refinement.") = "" from hcon] at hfal
    simp [pyFalsyStr] at hfal
  · simp [dictGet]
  · simp [dictGet]

/-- Witness for C6: an engine with no policies flags a fresh state with
the fallback decision. -/
theorem policyEngine_fallback_decision_witness :
    (∃ d, engine0.evaluate "T0" (TriageAgent.initState clock0 "MOL_001" .vnone)
        = .ok d ∧
      d.decisionType = engine0.defaultAction ∧
      d.rationale = "No decisive policy triggered for " ++
        (TriageAgent.initState clock0 "MOL_001" .vnone).identifier ++
        ". Applying conservative default action (" ++
        engine0.defaultAction.enumName ++
        ") pending further review or policy refinement." ∧
      d.rationale ≠ "" ∧
      dictGet d.metadata "num_policies_evaluated" =
        some (.vnat engine0.policies.length) ∧
      dictGet d.metadata "tool_results_count" =
        some (.vnat (TriageAgent.initState clock0 "MOL_001" .vnone).toolResults.length)) ∧
    ({ policies := [] } : PolicyEngine).defaultAction = DecisionType.flag :=
  policyEngine_fallback_decision engine0 "T0"
    (TriageAgent.initState clock0 "MOL_001" .vnone) (by simp [engine0])

/-- Claim C7: constructing a Decision with an empty or whitespace-only
rationale always fails with the empty-rationale error; constructing one
with a non-empty rationale and no supplied timestamp succeeds and the
resulting metadata carries the auto-generated timestamp key. -/
theorem decision_rationale_validation (dt : DecisionType) (r : String)
    (md : List (String × Val)) (now : String) :
    (pyFalsyStr r = true →
      Decision.create dt r md now =
        .error "rationale cannot be empty - decisions must be explained") ∧
    (pyFalsyStr r = false → dictGet md "timestamp" = none →
      ∃ d, Decision.create dt r md now = .ok d ∧
        dictGet d.metadata "timestamp" = some (.vstr now) ∧
        d.decisionType = dt ∧ d.rationale = r) := by
  constructor
  · intro h
    simp [Decision.create, h]
  · intro h hts
    refine ⟨Decision.mk dt r (dictSet md "timestamp" (.vstr now)), ?_, ?_,
      rfl, rfl⟩
    · simp [Decision.create, h, hts]
    · exact dictGet_dictSet_self md "timestamp" (.vstr now)

/-- Witness for C7: a whitespace-only rationale is rejected; a non-empty
one without a timestamp gets one stamped into the metadata. -/
theorem decision_rationale_validation_witness :
    Decision.create .pass "  " [] "T0" =
      .error "rationale cannot be empty - decisions must be explained" ∧
    (∃ d, Decision.create .pass "looks fine" [] "T0" = .ok d ∧
      dictGet d.metadata "timestamp" = some (.vstr "T0") ∧
      d.decisionType = .pass ∧ d.rationale = "looks fine") :=
  ⟨(decision_rationale_validation .pass "  " [] "T0").1 (by decide),
   (decision_rationale_validation .pass "looks fine" [] "T0").2 (by decide) rfl⟩

/-- Claim C8: for every validly constructed Decision (its rationale is
not empty or whitespace-only, as enforced at construction),
from_dict (to_dict d) succeeds and reproduces the category and the
rationale. -/
theorem decision_to_from_dict_roundtrip (d : Decision) (now : String)
    (h : pyFalsyStr d.rationale = false) :
    ∃ d2, Decision.fromDict d.toDict now = .ok d2 ∧
      d2.decisionType = d.decisionType ∧ d2.rationale = d.rationale := by
  have hval : DecisionType.ofValue d.decisionType.value = some d.decisionType := by
    cases d.decisionType <;> rfl
  refine ⟨Decision.mk d.decisionType d.rationale
      (if (dictGet d.metadata "timestamp").isSome then d.metadata
       else dictSet d.metadata "timestamp" (.vstr now)), ?_, rfl, rfl⟩
  simp [Decision.toDict, Decision.fromDict, dictGet, hval, Decision.create, h]

/-- Witness for C8: a concrete Decision round-trips with equal category
and rationale. -/
theorem decision_to_from_dict_roundtrip_witness :
    ∃ d2, Decision.fromDict sampleDecision.toDict "T1" = .ok d2 ∧
      d2.decisionType = sampleDecision.decisionType ∧
      d2.rationale = sampleDecision.rationale :=
  decision_to_from_dict_roundtrip sampleDecision "T1" (by decide)

/-- No single AgentState operation lowers the terminated or decision_set
flag. -/
theorem applyOp_flags_monotone (s : AgentState) (op : AgentOp) :
    (s.terminated = true → (s.applyOp op).terminated = true) ∧
    (s.decisionSet = true → (s.applyOp op).decisionSet = true) := by
  cases op <;>
    simp [AgentState.applyOp, AgentState.addToolResult, AgentState.addMessage,
      AgentState.setDecision, AgentState.setToolsComplete, AgentState.terminate]

/-- Claim C9: the terminated and decision_set flags of an AgentState are
monotone: once terminate() has run, is_terminated() stays true across any
subsequent sequence of AgentState operations, and once set_decision() has
run, is_decision_set() stays true; no operation resets either flag. -/
theorem agentState_flags_monotone :
    ∀ (ops : List AgentOp) (s : AgentState),
      (s.isTerminated = true →
        (ops.foldl AgentState.applyOp s).isTerminated = true) ∧
      (s.isDecisionSet = true →
        (ops.foldl AgentState.applyOp s).isDecisionSet = true)
  | [], s => ⟨fun h => h, fun h => h⟩
  | op :: ops, s => by
    have h1 := applyOp_flags_monotone s op
    have h2 := agentState_flags_monotone ops (s.applyOp op)
    exact ⟨fun h => h2.1 (h1.1 h), fun h => h2.2 (h1.2 h)⟩

/-- Witness for C9: a state with both flags up keeps them up across a
sequence containing every kind of operation. -/
theorem agentState_flags_monotone_witness :
    (sampleOps.foldl AgentState.applyOp stateBothFlags).isTerminated = true ∧
    (sampleOps.foldl AgentState.applyOp stateBothFlags).isDecisionSet = true :=
  ⟨(agentState_flags_monotone sampleOps stateBothFlags).1 rfl,
   (agentState_flags_monotone sampleOps stateBothFlags).2 rfl⟩

/-- Claim C2 evidence: a TriageAgent.run call that returns normally
returns a state whose tools_complete flag is still false, although the
completion message was appended.  The set_tools_complete call after the
loop is commented out in the source (triage_agent.py line 354), so the
execution-phase-complete transition never happens and the flag keeps its
constructor default. -/
theorem run_leaves_toolsComplete_false :
    ∃ s, TriageAgent.run { tools := [], policyEngine := engine0 } clock0
        "MOL_001" (.vdict []) = .ok s ∧
      s.toolsComplete = false ∧
      s.messages = ["All tools completed at T0"] := by
  refine ⟨_, rfl, rfl, rfl⟩

/-- Claim C3: the state TriageAgent.run returns has a decision present
and the decision_set flag up if and only if run returned normally.  The
first conjunct: every normally returned state carries a decision (no
incomplete-success return).  The second conjunct, on the internal state and
escaping-exception pair, gives the full equivalence: the decision is
present and flagged exactly when no exception escapes. -/
theorem run_decision_iff_normal_return (a : TriageAgent) (cl : Clock)
    (mid : String) (ri : Val) :
    (∀ s, a.run cl mid ri = .ok s →
      s.decision.isSome = true ∧ s.decisionSet = true) ∧
    ((a.runFull cl mid ri).2.1 = none ↔
      ((a.runFull cl mid ri).1.decision.isSome = true ∧
       (a.runFull cl mid ri).1.decisionSet = true)) := by
  have hpres := runTools_preserves_flags cl a.tools (TriageAgent.initState cl mid ri)
  rcases hr : runTools cl a.tools (TriageAgent.initState cl mid ri) with ⟨s1, e1, tr⟩
  rw [hr] at hpres
  have hd1 : s1.decision = none := by
    rw [hpres.1]
    rfl
  have hds1 : s1.decisionSet = false := by
    rw [hpres.2.1]
    rfl
  cases e1 with
  | some e =>
    have hfull : a.runFull cl mid ri = (s1, some e, tr) := by
      simp only [TriageAgent.runFull, hr]
    constructor
    · intro s hs
      unfold TriageAgent.run at hs
      rw [hfull] at hs
      simp at hs
    · rw [hfull]
      constructor
      · intro hcon
        simp at hcon
      · rintro ⟨hcon, -⟩
        rw [hd1] at hcon
        simp at hcon
  | none =>
    rcases hev : a.policyEngine.evaluate cl.timestamp
        (s1.addMessage ("All tools completed at " ++ cl.timestamp)) with pe | dd
    · have hfull : a.runFull cl mid ri =
          (s1.addMessage ("All tools completed at " ++ cl.timestamp),
           some (match pe with
             | .policyEvaluationError m => RunError.policyEvaluation m
             | .otherError ty m => RunError.policyEvaluation
                 ("Unexpected policy evaluation error: " ++ ty ++ ": " ++ m)),
           tr) := by
        cases pe <;> simp only [TriageAgent.runFull, hr, hev]
      constructor
      · intro s hs
        unfold TriageAgent.run at hs
        rw [hfull] at hs
        simp at hs
      · rw [hfull]
        constructor
        · intro hcon
          simp at hcon
        · rintro ⟨hcon, -⟩
          have : (s1.addMessage
              ("All tools completed at " ++ cl.timestamp)).decision = none := hd1
          rw [this] at hcon
          simp at hcon
    · have hfull : a.runFull cl mid ri =
          ((s1.addMessage ("All tools completed at " ++ cl.timestamp)).setDecision dd,
           none, tr) := by
        simp only [TriageAgent.runFull, hr, hev]
      constructor
      · intro s hs
        unfold TriageAgent.run at hs
        rw [hfull] at hs
        simp only [Except.ok.injEq] at hs
        rw [← hs]
        exact ⟨rfl, rfl⟩
      · rw [hfull]
        simp [AgentState.setDecision]

/-- Witness for C3: a concrete agent run returns normally with a decision
present and flagged. -/
theorem run_decision_iff_normal_return_witness :
    ((agentPlain.runFull clock0 "MOL_001" (.vdict [])).2.1 = none ↔
      ((agentPlain.runFull clock0 "MOL_001" (.vdict [])).1.decision.isSome = true ∧
       (agentPlain.runFull clock0 "MOL_001" (.vdict [])).1.decisionSet = true)) ∧
    ((agentPlain.runFull clock0 "MOL_001" (.vdict [])).1.decision.isSome = true ∧
     (agentPlain.runFull clock0 "MOL_001" (.vdict [])).1.decisionSet = true) :=
  ⟨(run_decision_iff_normal_return agentPlain clock0 "MOL_001" (.vdict [])).2,
   (run_decision_iff_normal_return agentPlain clock0 "MOL_001" (.vdict [])).2.mp rfl⟩

/-- Claim C4: when a tool raises a declared failure, a failure result
carrying the tool name, FAILURE status, the error text and the elapsed
time is stored into tool_results under the name of the tool; with a
NON_TERMINAL failure mode the loop continues into the remaining tools
from the updated state (so no exception escapes on account of this
failure), while with a TERMINAL mode the loop stops at this tool and the
ToolExecutionError is re-raised, the failure result having been recorded
into the state that accompanies the raise. -/
theorem declared_failure_handling (cl : Clock) (t : Tool) (s : AgentState)
    (m : String) (rest : List Tool) (hterm : s.terminated = false)
    (hbeh : t.behavior s = .declaredFailure m) :
    let er : ToolOutput := .toolResult
      { toolName := t.name, status := .failure, data := none,
        errorMessage := some m, executionTimeMs := some cl.elapsedMs }
    dictGet (s.addToolResult t.name er).toolResults t.name = some er ∧
    runTools cl (t :: rest) s =
      (match t.failureMode with
       | .nonTerminal =>
         ((runTools cl rest (s.addToolResult t.name er)).1,
          (runTools cl rest (s.addToolResult t.name er)).2.1,
          t.name :: (runTools cl rest (s.addToolResult t.name er)).2.2)
       | .terminal =>
         (s.addToolResult t.name er, some (.toolExecution m), [t.name])) := by
  intro er
  constructor
  · exact dictGet_dictSet_self s.toolResults t.name er
  · cases hf : t.failureMode with
    | nonTerminal =>
      simp only [runTools, hterm, Bool.false_eq_true, if_false, stepTool,
        hbeh, hf]
    | terminal =>
      simp only [runTools, hterm, Bool.false_eq_true, if_false, stepTool,
        hbeh, hf]

/-- Witness for C4: both failure modes at concrete tools.  The TERMINAL
tool aborts the loop with the ToolExecutionError and its recorded failure
result; the NON_TERMINAL tool falls through to the (empty) remainder. -/
theorem declared_failure_handling_witness :
    (dictGet ((TriageAgent.initState clock0 "MOL_001" .vnone).addToolResult
        failingToolTerminal.name (.toolResult
          { toolName := failingToolTerminal.name, status := .failure,
            data := none, errorMessage := some "boom",
            executionTimeMs := some clock0.elapsedMs })).toolResults
        failingToolTerminal.name =
      some (.toolResult
        { toolName := failingToolTerminal.name, status := .failure,
          data := none, errorMessage := some "boom",
          executionTimeMs := some clock0.elapsedMs }) ∧
     runTools clock0 [failingToolTerminal]
        (TriageAgent.initState clock0 "MOL_001" .vnone) =
      (match failingToolTerminal.failureMode with
       | .nonTerminal =>
         ((runTools clock0 []
            ((TriageAgent.initState clock0 "MOL_001" .vnone).addToolResult
              failingToolTerminal.name (.toolResult
                { toolName := failingToolTerminal.name, status := .failure,
                  data := none, errorMessage := some "boom",
                  executionTimeMs := some clock0.elapsedMs }))).1,
          (runTools clock0 []
            ((TriageAgent.initState clock0 "MOL_001" .vnone).addToolResult
              failingToolTerminal.name (.toolResult
                { toolName := failingToolTerminal.name, status := .failure,
                  data := none, errorMessage := some "boom",
                  executionTimeMs := some clock0.elapsedMs }))).2.1,
          failingToolTerminal.name :: (runTools clock0 []
            ((TriageAgent.initState clock0 "MOL_001" .vnone).addToolResult
              failingToolTerminal.name (.toolResult
                { toolName := failingToolTerminal.name, status := .failure,
                  data := none, errorMessage := some "boom",
                  executionTimeMs := some clock0.elapsedMs }))).2.2)
       | .terminal =>
         ((TriageAgent.initState clock0 "MOL_001" .vnone).addToolResult
            failingToolTerminal.name (.toolResult
              { toolName := failingToolTerminal.name, status := .failure,
                data := none, errorMessage := some "boom",
                executionTimeMs := some clock0.elapsedMs }),
          some (.toolExecution "boom"), [failingToolTerminal.name]))) ∧
    (runTools clock0 [failingToolNonTerminal]
        (TriageAgent.initState clock0 "MOL_001" .vnone)).2.1 = none :=
  ⟨declared_failure_handling clock0 failingToolTerminal
      (TriageAgent.initState clock0 "MOL_001" .vnone) "boom" [] rfl rfl,
   by
    have h := (declared_failure_handling clock0 failingToolNonTerminal
      (TriageAgent.initState clock0 "MOL_001" .vnone) "boom" [] rfl rfl).2
    rw [h]
    rfl⟩

/-- Claim C10: when the ValidityTool result dict lacks the is_valid key,
the orchestrator treats the subject as invalid exactly as for an explicit
is_valid false: the run terminates early (the equation shows only the
ValidityTool in the invocation trace, skipping every later tool), and
with no error_message key the termination message carries the default
text Unknown validation error. -/
theorem validity_missing_key_treated_invalid (cl : Clock) (t : Tool)
    (post : List Tool) (s : AgentState) (hterm : s.terminated = false)
    (hname : t.name = "ValidityTool") (d : List (String × Val))
    (hbeh : t.behavior s = .success (.rawVal (.vdict d)))
    (hmiss : dictGet d "is_valid" = none)
    (hnoerr : dictGet d "error_message" = none) :
    runTools cl (t :: post) s =
      (((s.addToolResult t.name (.rawVal (.vdict d))).addMessage
          "Molecule failed validity check: Unknown validation error").terminate
        (some "Invalid chemistry: Unknown validation error"),
       none, ["ValidityTool"]) ∧
    (runTools cl (t :: post) s).1.terminated = true ∧
    "Molecule failed validity check: Unknown validation error" ∈
      (runTools cl (t :: post) s).1.messages := by
  have hinvalid : ((dictGet d "is_valid").getD (.vbool false)).truthy = false := by
    rw [hmiss]
    rfl
  have heq := runTools_validity_invalid cl t post s hterm hname d hbeh hinvalid
  rw [hnoerr] at heq
  simp only [Option.getD_none, Val.toPyString] at heq
  rw [show "Molecule failed validity check: " ++ "Unknown validation error" =
      "Molecule failed validity check: Unknown validation error" from rfl,
    show "Invalid chemistry: " ++ "Unknown validation error" =
      "Invalid chemistry: Unknown validation error" from rfl] at heq
  refine ⟨heq, ?_, ?_⟩
  · rw [heq]
    rfl
  · rw [heq]
    exact mem_messages_terminate _ _ _ (by
      simp [AgentState.addMessage])

/-- Witness for C10: a ValidityTool returning an empty dict terminates
the run before a later tool, with the default error text. -/
theorem validity_missing_key_treated_invalid_witness :
    runTools clock0 [emptyDictValidityTool, sampleTool]
        (TriageAgent.initState clock0 "MOL_001" .vnone) =
      ((((TriageAgent.initState clock0 "MOL_001" .vnone).addToolResult
          emptyDictValidityTool.name (.rawVal (.vdict []))).addMessage
          "Molecule failed validity check: Unknown validation error").terminate
        (some "Invalid chemistry: Unknown validation error"),
       none, ["ValidityTool"]) ∧
    (runTools clock0 [emptyDictValidityTool, sampleTool]
        (TriageAgent.initState clock0 "MOL_001" .vnone)).1.terminated = true ∧
    "Molecule failed validity check: Unknown validation error" ∈
      (runTools clock0 [emptyDictValidityTool, sampleTool]
        (TriageAgent.initState clock0 "MOL_001" .vnone)).1.messages :=
  validity_missing_key_treated_invalid clock0 emptyDictValidityTool
    [sampleTool] (TriageAgent.initState clock0 "MOL_001" .vnone)
    rfl rfl [] rfl rfl rfl

/-- Claim C1: in every run in which the ValidityTool reports an invalid
subject (is_valid falsy in its stored dict result), no tool later in the
configured list is invoked — the full invocation trace is the trace of
the prefix followed by exactly ValidityTool — the terminated flag is
true, and the message explaining the termination is in messages; both
facts also hold of the state run returns on a normal return. -/
theorem validityGate_early_termination (a : TriageAgent) (cl : Clock)
    (mid : String) (ri : Val) (pre : List Tool) (vt : Tool) (post : List Tool)
    (htools : a.tools = pre ++ vt :: post)
    (hname : vt.name = "ValidityTool")
    (sMid : AgentState) (tr0 : List String)
    (hpre : runTools cl pre (TriageAgent.initState cl mid ri) = (sMid, none, tr0))
    (hterm : sMid.terminated = false)
    (d : List (String × Val))
    (hbeh : vt.behavior sMid = .success (.rawVal (.vdict d)))
    (hinvalid : ((dictGet d "is_valid").getD (.vbool false)).truthy = false) :
    let failMsg := "Molecule failed validity check: " ++
      ((dictGet d "error_message").getD
        (.vstr "Unknown validation error")).toPyString
    (a.runFull cl mid ri).2.2 = tr0 ++ ["ValidityTool"] ∧
    (a.runFull cl mid ri).1.terminated = true ∧
    failMsg ∈ (a.runFull cl mid ri).1.messages ∧
    (∀ s, a.run cl mid ri = .ok s →
      s.terminated = true ∧ failMsg ∈ s.messages) := by
  intro failMsg
  have hloop := runTools_validity_invalid cl vt post sMid hterm hname d hbeh
    hinvalid
  have happ := runTools_append_of_none cl (vt :: post) pre
    (TriageAgent.initState cl mid ri) sMid tr0 hpre
  rw [hloop] at happ
  rw [← htools] at happ
  obtain ⟨h1, h2, h3, h4⟩ := runFull_props_of_none a cl mid ri _ _ happ
  have hmem : failMsg ∈
      (((sMid.addToolResult vt.name (.rawVal (.vdict d))).addMessage
          failMsg).terminate
        (some ("Invalid chemistry: " ++
          ((dictGet d "error_message").getD
            (.vstr "Unknown validation error")).toPyString))).messages :=
    mem_messages_terminate _ _ failMsg (by simp [AgentState.addMessage])
  refine ⟨h1, ?_, h3 failMsg hmem, ?_⟩
  · rw [h2]
    rfl
  · intro s hs
    rw [h4 s hs, h2]
    exact ⟨rfl, h3 failMsg hmem⟩

/-- Witness for C1: an agent whose ValidityTool reports invalid with an
explicit error message, followed by one more tool: only ValidityTool is
invoked, the run terminates early, and the explanatory message is kept
through the normal return. -/
theorem validityGate_early_termination_witness :
    (agentInvalid.runFull clock0 "MOL_001" (.vdict [])).2.2 =
      [] ++ ["ValidityTool"] ∧
    (agentInvalid.runFull clock0 "MOL_001" (.vdict [])).1.terminated = true ∧
    ("Molecule failed validity check: " ++
      ((dictGet [("is_valid", Val.vbool false),
        ("error_message", Val.vstr "bad valence")] "error_message").getD
        (.vstr "Unknown validation error")).toPyString) ∈
      (agentInvalid.runFull clock0 "MOL_001" (.vdict [])).1.messages ∧
    (∀ s, agentInvalid.run clock0 "MOL_001" (.vdict []) = .ok s →
      s.terminated = true ∧
      ("Molecule failed validity check: " ++
        ((dictGet [("is_valid", Val.vbool false),
          ("error_message", Val.vstr "bad valence")] "error_message").getD
          (.vstr "Unknown validation error")).toPyString) ∈ s.messages) :=
  validityGate_early_termination agentInvalid clock0 "MOL_001" (.vdict [])
    [] invalidValidityTool [sampleTool] rfl rfl
    (TriageAgent.initState clock0 "MOL_001" (.vdict [])) [] rfl rfl
    [("is_valid", Val.vbool false), ("error_message", Val.vstr "bad valence")]
    rfl rfl

end TriFlag
